import Mathlib

/-!
Verification development for the Maya-Mocap trajectory import pipeline
(src/maya_trc.py).  The Python functions are embedded shallowly:

* a trajectory file is a list of tab-split lines, each line a list of cells;
* the pandas reads of df_from_trc are modelled by their documented semantics:
  an integer skiprows drops that many physical lines (blank lines included),
  then blank lines are discarded, then the header (when inferred) is the
  first remaining row; a read fails (ParserError / duplicate-names error)
  when a data row is longer than the column list or the passed names repeat;
* scene mutations of set_skeleton are recorded as an event trace; a Python
  exception (pandas KeyError on a missing column or row) is the none value
  of an Option result;
* the numeric table handed to the placement engines carries rational values,
  standing for the float samples of the file.
-/

/-! ### Python list and string helpers -/

/-- Elements at positions 0, 3, 6, ... of a list (step 3 of a Python slice). -/
def pyEvery3 {α : Type} : List α → List α
  | [] => []
  | [a] => [a]
  | [a, _] => [a]
  | a :: _ :: _ :: rest => a :: pyEvery3 rest

/-- Python slice l[2:-1:3]: elements at indices 2, 5, 8, ... strictly below
length - 1. -/
def pySlice2m13 {α : Type} (l : List α) : List α :=
  pyEvery3 ((l.drop 2).take (l.length - 3))

/-- Python slice s[:-1] on a string: all characters but the last. -/
def pyStripLast (s : String) : String := String.mk s.data.dropLast

/-- Python re.sub with pattern [0-9] and empty replacement: remove every
decimal digit character. -/
def stripDigits (s : String) : String :=
  String.mk (s.data.filter (fun c => !c.isDigit))

/-! ### Trajectory table parser (df_from_trc, src/maya_trc.py lines 89-106) -/

/-- A physically blank file line (no cells, or a single empty cell).  Lines
with several empty cells separated by tabs are not blank for pandas. -/
def blankRow (r : List String) : Bool := r.isEmpty || r == [""]

/-- Rows seen by one pandas read: drop skiprows physical lines, then discard
blank lines (default skip_blank_lines behaviour). -/
def csvRows (file : List (List String)) (skiprows : Nat) : List (List String) :=
  (file.drop skiprows).filter (fun r => !blankRow r)

/-- Rows of the metadata read: skiprows 1, header none, nrows 2. -/
def trcHeaderRows (file : List (List String)) : List (List String) :=
  (csvRows file 1).take 2

/-- Metadata key row of the trc file. -/
def trcKeys (file : List (List String)) : List String :=
  (trcHeaderRows file).headD []

/-- Metadata value row of the trc file. -/
def trcVals (file : List (List String)) : List String :=
  ((trcHeaderRows file).drop 1).headD []

/-- Rows of the label read: skiprows 3, inferred header, nrows 1. -/
def trcLabRows (file : List (List String)) : List (List String) :=
  csvRows file 3

/-- Column cells of the label read: the first non-blank row after the three
dropped lines (pandas takes the inferred header from it). -/
def trcLabCols (file : List (List String)) : List String :=
  (trcLabRows file).headD []

/-- Marker labels: Python slice [2:-1:3] of the label-row columns. -/
def trcLabels (file : List (List String)) : List String :=
  pySlice2m13 (trcLabCols file)

/-- Names passed to the data read (labels_FTXYZ in the source). -/
def trcNames (file : List (List String)) : List String :=
  "Frame#" :: "Time" ::
    (trcLabels file).flatMap (fun l => [l ++ "_X", l ++ "_Y", l ++ "_Z"])

/-- Rows of the data read: skiprows 5, header none, explicit names. -/
def trcDataRowsRaw (file : List (List String)) : List (List String) :=
  csvRows file 5

/-- True when every pandas read of df_from_trc succeeds: the second metadata
row is not longer than the first, the single row under the label header is at
most one cell longer than the header (one extra cell turns into an index, two
raise), the names passed to the data read are pairwise distinct (pandas
refuses duplicate explicit names), and no data row is longer than the names
(index_col false forbids extra cells). -/
def raggedOk (file : List (List String)) : Bool :=
  decide ((trcVals file).length ≤ (trcKeys file).length)
  && (((trcLabRows file).drop 1).take 1).all
       (fun r => decide (r.length ≤ (trcLabCols file).length + 1))
  && decide ((trcNames file).Nodup)
  && (trcDataRowsRaw file).all
       (fun r => decide (r.length ≤ (trcNames file).length))

/-- Result of df_from_trc: the metadata dictionary, the marker-coordinate
column names, and the per-frame rows with the frame and time cells removed. -/
structure ParsedTRC where
  header : List (String × String)
  dataCols : List String
  data : List (List String)
deriving DecidableEq

/-- Embedding of df_from_trc (src/maya_trc.py lines 89-106).  The metadata
dictionary is the zip of the key and value rows; the data table keeps every
parsed row, each stripped of its first two cells, and its columns are the
generated label_X, label_Y, label_Z names.  none stands for a raised pandas
error. -/
def df_from_trc (file : List (List String)) : Option ParsedTRC :=
  if raggedOk file then
    some { header := (trcKeys file).zip (trcVals file)
         , dataCols := (trcNames file).drop 2
         , data := (trcDataRowsRaw file).map (fun r => r.drop 2) }
  else none

/-! ### Label de-duplication (increment_labels, src/maya_trc.py lines 109-122) -/

/-- Counter computed by the loop of increment_labels: one pass over the
labels, starting at 1, adding 1 whenever the current label suffixed with the
current counter (or with J and the counter) is an existing object name. -/
def increment_labels_cnt (objs labels : List String) : Nat :=
  labels.foldl
    (fun cnt l =>
      if objs.contains (l ++ toString cnt) || objs.contains (l ++ "J" ++ toString cnt)
      then cnt + 1 else cnt)
    1

/-- Embedding of increment_labels: returns the final counter as a string and
every label suffixed with it, in input order. -/
def increment_labels (objs labels : List String) : String × List String :=
  let str_cnt := toString (increment_labels_cnt objs labels)
  (str_cnt, labels.map (fun l => l ++ str_cnt))

/-! ### Skeleton topology (SKELETON DEFINITION block and set_skeleton) -/

/-- Rooted tree of joint names (anytree Node). -/
inductive JTree where
  | node (name : String) (children : List JTree)

/-- Name of the tree root. -/
def JTree.name : JTree → String
  | .node n _ => n

/-- Children of the tree root. -/
def JTree.children : JTree → List JTree
  | .node _ cs => cs

mutual
/-- Names of a tree in depth-first pre-order, the order RenderTree yields and
the order the joints are created in. -/
def JTree.preorder : JTree → List String
  | .node n cs => n :: preorderForest cs

/-- Names of a forest in depth-first pre-order. -/
def preorderForest : List JTree → List String
  | [] => []
  | t :: ts => t.preorder ++ preorderForest ts
end

/-- The static body_25b joint hierarchy of the source. -/
def skelRoot : JTree :=
  .node "CHipJ"
    [ .node "RHipJ"
        [ .node "RKneeJ"
            [ .node "RAnkleJ"
                [ .node "RBigToeJ" [ .node "RSmallToeJ" [] ]
                , .node "RHeelJ" [] ] ] ]
    , .node "LHipJ"
        [ .node "LKneeJ"
            [ .node "LAnkleJ"
                [ .node "LBigToeJ" [ .node "LSmallToeJ" [] ]
                , .node "LHeelJ" [] ] ] ]
    , .node "NeckJ"
        [ .node "HeadJ" [ .node "NoseJ" [] ]
        , .node "RShoulderJ" [ .node "RElbowJ" [ .node "RWristJ" [] ] ]
        , .node "LShoulderJ" [ .node "LElbowJ" [ .node "LWristJ" [] ] ] ] ]

/-- root.name[:-1] of the source: the raw root label. -/
def rootLbl : String := pyStripLast skelRoot.name

/-- root.children[k].name[:-1] of the source. -/
def childLbl (t : JTree) (k : Nat) : String :=
  pyStripLast ((t.children[k]?.getD (JTree.node "" [])).name)

/-- Label of the first hip child of the root. -/
def rhipLbl : String := childLbl skelRoot 0

/-- Label of the second hip child of the root. -/
def lhipLbl : String := childLbl skelRoot 1

/-- Joint object names of one import: the pre-order joint names, each with
the disambiguation suffix (the list cmds.ls returns after selecting the
suffixed root with its hierarchy). -/
def jointsJ (cnt : String) : List String :=
  skelRoot.preorder.map (fun n => n ++ cnt)

/-- Normalisation applied during per-frame placement
(re.sub removing digits, then [:-1] removing the trailing J). -/
def jointNameToLabel (s : String) : String := pyStripLast (stripDigits s)

/-! ### Numeric trajectory table and the placement engines -/

/-- Numeric table handed to set_markers and set_skeleton: named marker
coordinate columns and one row of rationals per frame. -/
structure DataTable where
  cols : List String
  rows : List (List ℚ)
deriving DecidableEq

/-- pandas data.loc with a row position and a column name; none when the
column or the row is missing (a raised KeyError). -/
def DataTable.loc (d : DataTable) (i : Nat) (c : String) : Option ℚ := do
  let k ← d.cols.findIdx? (fun c0 => c0 == c)
  let row ← d.rows[i]?
  row[k]?

/-- pandas data.iloc with a row and a column position. -/
def DataTable.iloc (d : DataTable) (i k : Nat) : Option ℚ := do
  let row ← d.rows[i]?
  row[k]?

/-- File-order sample of marker j at frame i: the three consecutive cells of
its column triple, by position. -/
def fileTriple (d : DataTable) (i j : Nat) : Option (ℚ × ℚ × ℚ) := do
  let a ← d.iloc i (3 * j)
  let b ← d.iloc i (3 * j + 1)
  let c ← d.iloc i (3 * j + 2)
  pure (a, b, c)

/-- File-order sample of the marker with a given label at frame i, by column
name. -/
def locTriple (d : DataTable) (i : Nat) (lbl : String) : Option (ℚ × ℚ × ℚ) := do
  let a ← d.loc i (lbl ++ "_X")
  let b ← d.loc i (lbl ++ "_Y")
  let c ← d.loc i (lbl ++ "_Z")
  pure (a, b, c)

/-- Scene coordinate set_markers keys for marker j at frame i
(src/maya_trc.py lines 149-153): translateX from column 3j+2, translateY
from column 3j, translateZ from column 3j+1. -/
def set_markers_coord (d : DataTable) (i j : Nat) : Option (ℚ × ℚ × ℚ) := do
  let x ← d.iloc i (3 * j + 2)
  let y ← d.iloc i (3 * j)
  let z ← d.iloc i (3 * j + 1)
  pure (x, y, z)

/-- Scene mutation events of set_skeleton: cmds.move with the three applied
coordinates, cmds.setKeyframe at a frame, and the joint-orientation edit of a
non-root joint together with its keyframe at a frame. -/
inductive Ev where
  | move (obj : String) (x y z : ℚ)
  | key (obj : String) (t : Nat)
  | orient (child : String) (t : Nat)
deriving DecidableEq

/-- True exactly on orientation events. -/
def isOrient : Ev → Bool
  | .orient _ _ => true
  | _ => false

/-- Coordinate set_skeleton resolves for joint j named name at frame i
(src/maya_trc.py lines 182-192).  When j is 0 and the bare root label is not
among the columns, the hip samples are averaged; otherwise the normalised
joint name selects the marker columns.  Both branches put the file Z cell on
scene X, the file X cell on scene Y and the file Y cell on scene Z. -/
def jointCoord (d : DataTable) (i j : Nat) (name : String) : Option (ℚ × ℚ × ℚ) :=
  if (j == 0) && !(d.cols.contains rootLbl) then do
    let xr ← d.loc i (rhipLbl ++ "_Z")
    let xl ← d.loc i (lhipLbl ++ "_Z")
    let yr ← d.loc i (rhipLbl ++ "_X")
    let yl ← d.loc i (lhipLbl ++ "_X")
    let zr ← d.loc i (rhipLbl ++ "_Y")
    let zl ← d.loc i (lhipLbl ++ "_Y")
    pure ((xr + xl) / 2, (yr + yl) / 2, (zr + zl) / 2)
  else do
    let x ← d.loc i (jointNameToLabel name ++ "_Z")
    let y ← d.loc i (jointNameToLabel name ++ "_X")
    let z ← d.loc i (jointNameToLabel name ++ "_Y")
    pure (x, y, z)

/-- Inner placement loop of one frame, from joint index j over the remaining
joint names: a move then a keyframe per joint. -/
def placeJointsAux (d : DataTable) (i : Nat) : Nat → List String → Option (List Ev)
  | _, [] => some []
  | j, name :: rest => do
    let c ← jointCoord d i j name
    let tail ← placeJointsAux d i (j + 1) rest
    pure (Ev.move name c.1 c.2.1 c.2.2 :: Ev.key name i :: tail)

/-- Placement of every joint of frame i. -/
def placeJoints (d : DataTable) (J : List String) (i : Nat) : Option (List Ev) :=
  placeJointsAux d i 0 J

/-- Orientation pass over the non-root joints at frame i (the loop over
range(1, len(jointsJ))). -/
def orientPass (J : List String) (i : Nat) : List Ev :=
  (J.drop 1).map (fun nm => Ev.orient nm i)

/-- Frame loop of set_skeleton from frame i with a given number of frames
left: place every joint, run the orientation pass when i is 0, recurse. -/
def skelFrames (d : DataTable) (J : List String) : Nat → Nat → Option (List Ev)
  | _, 0 => some []
  | i, k + 1 => do
    let pl ← placeJoints d J i
    let tl ← skelFrames d J (i + 1) k
    pure ((pl ++ if i == 0 then orientPass J i else []) ++ tl)

/-- Embedding of set_skeleton (src/maya_trc.py lines 180-197) as its trace of
scene mutations; none when a pandas lookup raises. -/
def set_skeleton (d : DataTable) (cnt : String) (numFrames : Nat) : Option (List Ev) :=
  skelFrames d (jointsJ cnt) 0 numFrames

/-- True when the columns set_skeleton reads to place joint j are not all
present: the hip coordinate columns for the synthesised root, the columns of
the normalised joint name otherwise. -/
def requiredMarkerAbsent (d : DataTable) (cnt : String) (j : Nat) : Bool :=
  if (j == 0) && !(d.cols.contains rootLbl) then
    !(d.cols.contains (rhipLbl ++ "_Z")) || !(d.cols.contains (lhipLbl ++ "_Z"))
    || !(d.cols.contains (rhipLbl ++ "_X")) || !(d.cols.contains (lhipLbl ++ "_X"))
    || !(d.cols.contains (rhipLbl ++ "_Y")) || !(d.cols.contains (lhipLbl ++ "_Y"))
  else
    !(d.cols.contains (jointNameToLabel ((jointsJ cnt).getD j "") ++ "_Z"))
    || !(d.cols.contains (jointNameToLabel ((jointsJ cnt).getD j "") ++ "_X"))
    || !(d.cols.contains (jointNameToLabel ((jointsJ cnt).getD j "") ++ "_Y"))

/-! ### Concrete inputs used by individual claims -/

/-- Trajectory file laid out exactly as the spec describes: banner, metadata
keys, metadata values, blank row, column headers, per-axis sub-labels, then
one numeric row (one marker, one frame). -/
def specLayoutFile : List (List String) :=
  [ ["PathFileType", "4", "(X/Y/Z)", "ex.trc"]
  , ["DataRate", "CameraRate", "NumFrames", "NumMarkers", "Units",
     "OrigDataRate", "OrigDataStartFrame", "OrigNumFrames"]
  , ["30", "30", "1", "1", "m", "30", "1", "1"]
  , []
  , ["Frame#", "Time", "M1", "", ""]
  , ["", "", "X1", "Y1", "Z1"]
  , ["1", "0.0", "1.1", "2.2", "3.3"] ]

/-- Trajectory file in the layout the code actually reads (blank row after
the sub-labels) whose NumMarkers metadata value, 5, disagrees with its single
marker column triple. -/
def inconsistentNumMarkersFile : List (List String) :=
  [ ["PathFileType", "4", "(X/Y/Z)", "ex.trc"]
  , ["DataRate", "CameraRate", "NumFrames", "NumMarkers", "Units",
     "OrigDataRate", "OrigDataStartFrame", "OrigNumFrames"]
  , ["30", "30", "1", "5", "m", "30", "1", "1"]
  , ["Frame#", "Time", "M1", "", ""]
  , ["", "", "X1", "Y1", "Z1"]
  , []
  , ["1", "0.0", "1.1", "2.2", "3.3"] ]

/-- Table holding a direct CHip marker besides the two hip markers; the CHip
sample (10, 20, 30) differs from the hip midpoint. -/
def dC2 : DataTable :=
  { cols := ["CHip_X", "CHip_Y", "CHip_Z", "RHip_X", "RHip_Y", "RHip_Z",
             "LHip_X", "LHip_Y", "LHip_Z"]
  , rows := [[10, 20, 30, 1, 2, 3, 5, 6, 7]] }

/-- Table without a root marker, with hip samples (1, 2, 3) and (5, 6, 7). -/
def dC5w : DataTable :=
  { cols := ["RHip_X", "RHip_Y", "RHip_Z", "LHip_X", "LHip_Y", "LHip_Z"]
  , rows := [[1, 2, 3, 5, 6, 7]] }

/-- Two-marker table whose second marker sample at frame 0 is (1, 2, 3). -/
def dC6w : DataTable :=
  { cols := ["CHip_X", "CHip_Y", "CHip_Z", "RHip_X", "RHip_Y", "RHip_Z"]
  , rows := [[10, 20, 30, 1, 2, 3]] }

/-- Labels of every marker a full skeleton run reads. -/
def fullLabels : List String :=
  ["RHip", "RKnee", "RAnkle", "RBigToe", "RSmallToe", "RHeel",
   "LHip", "LKnee", "LAnkle", "LBigToe", "LSmallToe", "LHeel",
   "Neck", "Head", "Nose", "RShoulder", "RElbow", "RWrist",
   "LShoulder", "LElbow", "LWrist"]

/-- One-frame table carrying a zero sample for every marker of the
topology. -/
def dFullC8 : DataTable :=
  { cols := fullLabels.flatMap (fun l => [l ++ "_X", l ++ "_Y", l ++ "_Z"])
  , rows := [List.replicate 63 0] }

/-! ### Helper lemmas -/

theorem increment_step_bounds (objs : List String) :
    ∀ (labels : List String) (c : Nat),
      c ≤ labels.foldl
            (fun cnt l =>
              if objs.contains (l ++ toString cnt)
                 || objs.contains (l ++ "J" ++ toString cnt)
              then cnt + 1 else cnt) c
      ∧ labels.foldl
            (fun cnt l =>
              if objs.contains (l ++ toString cnt)
                 || objs.contains (l ++ "J" ++ toString cnt)
              then cnt + 1 else cnt) c ≤ c + labels.length := by
  intro labels
  induction labels with
  | nil => intro c; simp
  | cons a t ih =>
    intro c
    simp only [List.foldl_cons, List.length_cons]
    by_cases h : (objs.contains (a ++ toString c)
        || objs.contains (a ++ "J" ++ toString c)) = true
    · rw [if_pos h]
      obtain ⟨h1, h2⟩ := ih (c + 1)
      exact ⟨by omega, by omega⟩
    · rw [if_neg h]
      obtain ⟨h1, h2⟩ := ih c
      exact ⟨h1, by omega⟩

/-! ### Claim theorems -/

/-- Claim C10 (confirmed): increment_labels always terminates after a single
pass over the labels, incrementing the counter at most once per label, so the
returned counter n satisfies 1 <= n <= len(labels) + 1 for every existing-name
set. -/
theorem increment_labels_cnt_bounds (objs labels : List String) :
    1 ≤ increment_labels_cnt objs labels
    ∧ increment_labels_cnt objs labels ≤ labels.length + 1 := by
  obtain ⟨h1, h2⟩ := increment_step_bounds objs labels 1
  unfold increment_labels_cnt
  exact ⟨h1, by omega⟩

/-- Claim C1 (code bug): on labels A, B with existing objects B1 and A2 the
one-pass loop of increment_labels returns counter 2, whose adjusted label A2
is itself an existing object name — the returned counter does not make every
adjusted label (nor its joint variant) collision free, contradicting the
stated contract and the purpose of the probe. -/
theorem increment_labels_returns_colliding_name :
    increment_labels ["B1", "A2"] ["A", "B"] = ("2", ["A2", "B2"])
    ∧ "A" ++ "2" ∈ (["B1", "A2"] : List String) := by
  constructor
  · rfl
  · decide

/-- Claim C7 (corrected), counterexample: for the digit-carrying marker label
C7, the joint identifier C7 + J + 1 normalises to C, not to C7 — the digit
inside the label is stripped as well. -/
theorem jointNameToLabel_digit_counterexample :
    jointNameToLabel ("C7" ++ "J" ++ "1") = "C"
    ∧ jointNameToLabel ("C7" ++ "J" ++ "1") ≠ "C7" := by
  constructor
  · rfl
  · decide

/-- Claim C7 (corrected): for a marker label containing no digit character,
normalising label + J + digit suffix returns exactly the label; labels with
digits also lose those digits, so the guarantee is restricted to digit-free
labels. -/
theorem jointNameToLabel_strips_suffixes (lbl sfx : String)
    (hl : lbl.data.all (fun c => !c.isDigit) = true)
    (hs : sfx.data.all (fun c => c.isDigit) = true) :
    jointNameToLabel (lbl ++ "J" ++ sfx) = lbl := by
  unfold jointNameToLabel stripDigits pyStripLast
  have hdata : (lbl ++ "J" ++ sfx).data = lbl.data ++ ('J' :: sfx.data) := by
    simp [String.data_append]
  rw [hdata, List.filter_append]
  have h1 : lbl.data.filter (fun c => !c.isDigit) = lbl.data := by
    rw [List.filter_eq_self]
    intro a ha
    exact (List.all_eq_true.mp hl) a ha
  have h2 : ('J' :: sfx.data).filter (fun c => !c.isDigit) = ['J'] := by
    rw [List.filter_cons_of_pos (by decide)]
    have : sfx.data.filter (fun c => !c.isDigit) = [] := by
      rw [List.filter_eq_nil_iff]
      intro a ha
      simp [(List.all_eq_true.mp hs) a ha]
    rw [this]
  rw [h1, h2, List.dropLast_concat]

/-- Claim C7 witness: the digit-free label CHip with suffix 1. -/
theorem jointNameToLabel_strips_suffixes_witness :
    jointNameToLabel ("CHip" ++ "J" ++ "1") = "CHip" :=
  jointNameToLabel_strips_suffixes "CHip" "1" (by decide) (by decide)

theorem pyEvery3_nil {α : Type} : pyEvery3 ([] : List α) = [] := rfl

theorem pyEvery3_cons {α : Type} (a : α) (l : List α) :
    pyEvery3 (a :: l) = a :: pyEvery3 (l.drop 2) := by
  match l with
  | [] => rfl
  | [b] => rfl
  | b :: c :: rest => rfl

theorem length_flatMap_three (F : String → List String)
    (hF : ∀ l, (F l).length = 3) (L : List String) :
    (L.flatMap F).length = 3 * L.length := by
  induction L with
  | nil => simp
  | cons a t ih =>
    simp only [List.flatMap_cons, List.length_append, List.length_cons, hF, ih]
    omega

theorem pyEvery3_flat_take (L : List String) :
    pyEvery3 ((L.flatMap (fun l => [l, "", ""])).take (3 * L.length - 1)) = L := by
  induction L with
  | nil => simp [pyEvery3]
  | cons a t ih =>
    cases t with
    | nil =>
      simp only [List.flatMap_cons, List.flatMap_nil, List.append_nil,
        List.length_cons, List.length_nil]
      norm_num
      rw [pyEvery3_cons]
      simp [pyEvery3_nil]
    | cons b t' =>
      have harith : 3 * (t'.length + 1 + 1) - 1 = (3 * (t'.length + 1) - 1) + 3 := by
        omega
      simp only [List.flatMap_cons, List.length_cons, List.cons_append,
        List.nil_append] at ih ⊢
      rw [harith]
      rw [List.take_succ_cons, List.take_succ_cons, List.take_succ_cons]
      rw [pyEvery3_cons]
      simp only [List.drop_succ_cons, List.drop_zero]
      rw [ih]

theorem pySlice2m13_header (labels : List String) :
    pySlice2m13 ("Frame#" :: "Time" :: labels.flatMap (fun l => [l, "", ""]))
      = labels := by
  unfold pySlice2m13
  simp only [List.drop_succ_cons, List.drop_zero, List.length_cons]
  have hflat : (labels.flatMap (fun l => [l, "", ""])).length = 3 * labels.length :=
    length_flatMap_three (fun l => [l, "", ""]) (fun l => rfl) labels
  have harith : (labels.flatMap (fun l => [l, "", ""])).length + 1 + 1 - 3
      = 3 * labels.length - 1 := by
    rw [hflat]; omega
  rw [harith]
  exact pyEvery3_flat_take labels

theorem filter_nonblank_eq_self {rows : List (List String)}
    (h : ∀ r ∈ rows, blankRow r = false) :
    rows.filter (fun r => !blankRow r) = rows := by
  rw [List.filter_eq_self]
  intro a ha
  simp [h a ha]

/-- Claim C3 (corrected), counterexample: on a file laid out exactly as the
claim states (blank row 4, column headers row 5, sub-labels row 6, one data
row), the parser returns 2 frames instead of 1 — the integer skiprows of the
final read counts the blank physical line, so the sub-label row survives as a
data row. -/
theorem df_from_trc_blank_row4_extra_frame :
    (df_from_trc specLayoutFile).map (fun p => p.data.length) = some 2
    ∧ (df_from_trc specLayoutFile).map (fun p => p.data.length) ≠ some 1 := by
  constructor
  · rfl
  · decide

/-- Claim C3 (corrected): for a well-formed trajectory file whose blank row
sits between the sub-label row and the data rows (banner, metadata keys,
metadata values, column headers, sub-labels, blank, then one numeric row per
frame), the parser yields exactly one table row per data row, the coordinate
columns follow the header label order, every frame keeps exactly 3 N cells,
and the frame and time columns are removed. -/
theorem df_from_trc_wellformed
    (banner keysRow valsRow subRow : List String)
    (labels : List String) (dataRows : List (List String))
    (hk : blankRow keysRow = false)
    (hv : blankRow valsRow = false)
    (hs : blankRow subRow = false)
    (hkv : valsRow.length ≤ keysRow.length)
    (hsub : subRow.length ≤ (2 + 3 * labels.length) + 1)
    (hnd : ("Frame#" :: "Time" ::
        labels.flatMap (fun l => [l ++ "_X", l ++ "_Y", l ++ "_Z"])).Nodup)
    (hrows : ∀ r ∈ dataRows, blankRow r = false)
    (hrlen : ∀ r ∈ dataRows, r.length = 2 + 3 * labels.length) :
    df_from_trc
        ([banner, keysRow, valsRow,
          "Frame#" :: "Time" :: labels.flatMap (fun l => [l, "", ""]),
          subRow, []] ++ dataRows)
      = some { header := keysRow.zip valsRow
             , dataCols := labels.flatMap (fun l => [l ++ "_X", l ++ "_Y", l ++ "_Z"])
             , data := dataRows.map (fun r => r.drop 2) }
    ∧ (dataRows.map (fun r => r.drop 2)).length = dataRows.length
    ∧ ∀ r ∈ dataRows.map (fun r => r.drop 2), r.length = 3 * labels.length := by
  have hhdr : blankRow ("Frame#" :: "Time" :: labels.flatMap (fun l => [l, "", ""]))
      = false := rfl
  have hblanknil : blankRow ([] : List String) = true := rfl
  have hfilter : dataRows.filter (fun r => !blankRow r) = dataRows :=
    filter_nonblank_eq_self hrows
  have h1 : csvRows
      ([banner, keysRow, valsRow,
        "Frame#" :: "Time" :: labels.flatMap (fun l => [l, "", ""]),
        subRow, []] ++ dataRows) 1
      = keysRow :: valsRow ::
        ("Frame#" :: "Time" :: labels.flatMap (fun l => [l, "", ""])) ::
        subRow :: dataRows := by
    simp [csvRows, List.filter_cons, hk, hv, hs, hhdr, hblanknil, hfilter]
  have h3 : trcLabRows
      ([banner, keysRow, valsRow,
        "Frame#" :: "Time" :: labels.flatMap (fun l => [l, "", ""]),
        subRow, []] ++ dataRows)
      = ("Frame#" :: "Time" :: labels.flatMap (fun l => [l, "", ""])) ::
        subRow :: dataRows := by
    simp [trcLabRows, csvRows, List.filter_cons, hs, hhdr, hblanknil, hfilter]
  have h5 : trcDataRowsRaw
      ([banner, keysRow, valsRow,
        "Frame#" :: "Time" :: labels.flatMap (fun l => [l, "", ""]),
        subRow, []] ++ dataRows)
      = dataRows := by
    simp [trcDataRowsRaw, csvRows, List.filter_cons, hblanknil, hfilter]
  have hkeys : trcKeys
      ([banner, keysRow, valsRow,
        "Frame#" :: "Time" :: labels.flatMap (fun l => [l, "", ""]),
        subRow, []] ++ dataRows) = keysRow := by
    rw [trcKeys, trcHeaderRows, h1]
    rfl
  have hvals : trcVals
      ([banner, keysRow, valsRow,
        "Frame#" :: "Time" :: labels.flatMap (fun l => [l, "", ""]),
        subRow, []] ++ dataRows) = valsRow := by
    rw [trcVals, trcHeaderRows, h1]
    rfl
  have hcols : trcLabCols
      ([banner, keysRow, valsRow,
        "Frame#" :: "Time" :: labels.flatMap (fun l => [l, "", ""]),
        subRow, []] ++ dataRows)
      = "Frame#" :: "Time" :: labels.flatMap (fun l => [l, "", ""]) := by
    rw [trcLabCols, h3]
    rfl
  have hlabels : trcLabels
      ([banner, keysRow, valsRow,
        "Frame#" :: "Time" :: labels.flatMap (fun l => [l, "", ""]),
        subRow, []] ++ dataRows) = labels := by
    rw [trcLabels, hcols]
    exact pySlice2m13_header labels
  have hnames : trcNames
      ([banner, keysRow, valsRow,
        "Frame#" :: "Time" :: labels.flatMap (fun l => [l, "", ""]),
        subRow, []] ++ dataRows)
      = "Frame#" :: "Time" ::
          labels.flatMap (fun l => [l ++ "_X", l ++ "_Y", l ++ "_Z"]) := by
    rw [trcNames, hlabels]
  have hnameslen : ("Frame#" :: "Time" ::
      labels.flatMap (fun l => [l ++ "_X", l ++ "_Y", l ++ "_Z"])).length
      = 2 + 3 * labels.length := by
    simp only [List.length_cons,
      length_flatMap_three (fun l => [l ++ "_X", l ++ "_Y", l ++ "_Z"])
        (fun l => rfl) labels]
    omega
  have hhdrlen : ("Frame#" :: "Time" ::
      labels.flatMap (fun l => [l, "", ""])).length = 2 + 3 * labels.length := by
    simp only [List.length_cons,
      length_flatMap_three (fun l => [l, "", ""]) (fun l => rfl) labels]
    omega
  have hragged : raggedOk
      ([banner, keysRow, valsRow,
        "Frame#" :: "Time" :: labels.flatMap (fun l => [l, "", ""]),
        subRow, []] ++ dataRows) = true := by
    rw [raggedOk, hkeys, hvals, h3, hcols, hnames, h5]
    simp only [Bool.and_eq_true, List.all_eq_true, decide_eq_true_eq,
      List.drop_succ_cons, List.drop_zero, List.take_succ_cons, List.take_zero,
      List.mem_singleton, hnameslen, hhdrlen]
    refine ⟨⟨⟨hkv, ?_⟩, hnd⟩, ?_⟩
    · intro r hr
      subst hr
      exact hsub
    · intro r hr
      exact Nat.le_of_eq (hrlen r hr)
  refine ⟨?_, ?_, ?_⟩
  · rw [df_from_trc, if_pos hragged, hkeys, hvals, hnames, h5]
    rfl
  · simp
  · intro r hr
    simp only [List.mem_map] at hr
    obtain ⟨r0, hr0, rfl⟩ := hr
    have := hrlen r0 hr0
    simp only [List.length_drop]
    omega

/-- Claim C3 witness: a one-marker one-frame file in the working layout
parses to its single data row. -/
theorem df_from_trc_wellformed_witness :
    df_from_trc
        [ ["PathFileType", "4", "(X/Y/Z)", "ex.trc"]
        , ["DataRate", "CameraRate", "NumFrames", "NumMarkers", "Units",
           "OrigDataRate", "OrigDataStartFrame", "OrigNumFrames"]
        , ["30", "30", "1", "1", "m", "30", "1", "1"]
        , ["Frame#", "Time", "M1", "", ""]
        , ["", "", "X1", "Y1", "Z1"]
        , []
        , ["1", "0.0", "1.1", "2.2", "3.3"] ]
      = some { header := [("DataRate", "30"), ("CameraRate", "30"),
                          ("NumFrames", "1"), ("NumMarkers", "1"), ("Units", "m"),
                          ("OrigDataRate", "30"), ("OrigDataStartFrame", "1"),
                          ("OrigNumFrames", "1")]
             , dataCols := ["M1_X", "M1_Y", "M1_Z"]
             , data := [["1.1", "2.2", "3.3"]] } := by
  exact (df_from_trc_wellformed
    ["PathFileType", "4", "(X/Y/Z)", "ex.trc"]
    ["DataRate", "CameraRate", "NumFrames", "NumMarkers", "Units",
     "OrigDataRate", "OrigDataStartFrame", "OrigNumFrames"]
    ["30", "30", "1", "1", "m", "30", "1", "1"]
    ["", "", "X1", "Y1", "Z1"]
    ["M1"]
    [["1", "0.0", "1.1", "2.2", "3.3"]]
    rfl rfl rfl (by decide) (by decide) (by decide) (by decide) (by decide)).1

/-- Claim C4 (corrected), counterexample: a file declaring NumMarkers 5 while
carrying a single marker column triple (3 coordinate columns) parses without
any failure, and a file whose metadata keys can be anything does too — the
code never reads NumMarkers nor checks the key row. -/
theorem df_from_trc_inconsistent_metadata_succeeds :
    (df_from_trc inconsistentNumMarkersFile).map
        (fun p => (List.lookup "NumMarkers" p.header, p.dataCols.length))
      = some (some "5", 3)
    ∧ (df_from_trc inconsistentNumMarkersFile).isSome = true := by
  constructor
  · rfl
  · rfl

/-- Claim C4 (corrected): the parser applies no validation to the metadata:
replacing the metadata value row (the row carrying NumMarkers) by any other
non-blank row of the same cell count changes neither whether parsing succeeds
nor the parsed table; failures can only come from the shape of the label and
data rows themselves. -/
theorem df_from_trc_metadata_independent
    (r0 r1 v w : List String) (rest : List (List String))
    (hv : blankRow v = false) (hw : blankRow w = false)
    (hlen : w.length = v.length) :
    ((df_from_trc (r0 :: r1 :: v :: rest)).isSome
        = (df_from_trc (r0 :: r1 :: w :: rest)).isSome)
    ∧ (df_from_trc (r0 :: r1 :: v :: rest)).map (fun p => (p.dataCols, p.data))
        = (df_from_trc (r0 :: r1 :: w :: rest)).map (fun p => (p.dataCols, p.data)) := by
  have hA : decide ((trcVals (r0 :: r1 :: v :: rest)).length
        ≤ (trcKeys (r0 :: r1 :: v :: rest)).length)
      = decide ((trcVals (r0 :: r1 :: w :: rest)).length
        ≤ (trcKeys (r0 :: r1 :: w :: rest)).length) := by
    cases hr1 : blankRow r1 <;>
      simp [trcKeys, trcVals, trcHeaderRows, csvRows, List.filter_cons,
        hr1, hv, hw, hlen]
  have hLab : trcLabRows (r0 :: r1 :: v :: rest)
      = trcLabRows (r0 :: r1 :: w :: rest) := rfl
  have hCols : trcLabCols (r0 :: r1 :: v :: rest)
      = trcLabCols (r0 :: r1 :: w :: rest) := rfl
  have hNames : trcNames (r0 :: r1 :: v :: rest)
      = trcNames (r0 :: r1 :: w :: rest) := rfl
  have hData : trcDataRowsRaw (r0 :: r1 :: v :: rest)
      = trcDataRowsRaw (r0 :: r1 :: w :: rest) := rfl
  have hragged : raggedOk (r0 :: r1 :: v :: rest)
      = raggedOk (r0 :: r1 :: w :: rest) := by
    rw [raggedOk, raggedOk, hA, hLab, hCols, hNames, hData]
  constructor
  · rw [df_from_trc, df_from_trc, hragged]
    cases hr : raggedOk (r0 :: r1 :: w :: rest) <;> simp
  · rw [df_from_trc, df_from_trc, hragged]
    cases hr : raggedOk (r0 :: r1 :: w :: rest)
    · simp
    · simp only [if_true, eq_self_iff_true, Option.map_some]
      rw [hNames, hData]
      simp

/-- Claim C4 witness: swapping the value row between a consistent NumMarkers
of 1 and an inconsistent NumMarkers of 5 leaves success and table unchanged. -/
theorem df_from_trc_metadata_independent_witness :
    ((df_from_trc
        [ ["PathFileType", "4", "(X/Y/Z)", "ex.trc"]
        , ["DataRate", "CameraRate", "NumFrames", "NumMarkers", "Units",
           "OrigDataRate", "OrigDataStartFrame", "OrigNumFrames"]
        , ["30", "30", "1", "1", "m", "30", "1", "1"]
        , ["Frame#", "Time", "M1", "", ""]
        , ["", "", "X1", "Y1", "Z1"]
        , []
        , ["1", "0.0", "1.1", "2.2", "3.3"] ]).isSome
      = (df_from_trc
        [ ["PathFileType", "4", "(X/Y/Z)", "ex.trc"]
        , ["DataRate", "CameraRate", "NumFrames", "NumMarkers", "Units",
           "OrigDataRate", "OrigDataStartFrame", "OrigNumFrames"]
        , ["30", "30", "1", "5", "m", "30", "1", "1"]
        , ["Frame#", "Time", "M1", "", ""]
        , ["", "", "X1", "Y1", "Z1"]
        , []
        , ["1", "0.0", "1.1", "2.2", "3.3"] ]).isSome)
    ∧ (df_from_trc
        [ ["PathFileType", "4", "(X/Y/Z)", "ex.trc"]
        , ["DataRate", "CameraRate", "NumFrames", "NumMarkers", "Units",
           "OrigDataRate", "OrigDataStartFrame", "OrigNumFrames"]
        , ["30", "30", "1", "1", "m", "30", "1", "1"]
        , ["Frame#", "Time", "M1", "", ""]
        , ["", "", "X1", "Y1", "Z1"]
        , []
        , ["1", "0.0", "1.1", "2.2", "3.3"] ]).map (fun p => (p.dataCols, p.data))
      = (df_from_trc
        [ ["PathFileType", "4", "(X/Y/Z)", "ex.trc"]
        , ["DataRate", "CameraRate", "NumFrames", "NumMarkers", "Units",
           "OrigDataRate", "OrigDataStartFrame", "OrigNumFrames"]
        , ["30", "30", "1", "5", "m", "30", "1", "1"]
        , ["Frame#", "Time", "M1", "", ""]
        , ["", "", "X1", "Y1", "Z1"]
        , []
        , ["1", "0.0", "1.1", "2.2", "3.3"] ]).map (fun p => (p.dataCols, p.data)) := by
  exact df_from_trc_metadata_independent
    ["PathFileType", "4", "(X/Y/Z)", "ex.trc"]
    ["DataRate", "CameraRate", "NumFrames", "NumMarkers", "Units",
     "OrigDataRate", "OrigDataStartFrame", "OrigNumFrames"]
    ["30", "30", "1", "1", "m", "30", "1", "1"]
    ["30", "30", "1", "5", "m", "30", "1", "1"]
    [ ["Frame#", "Time", "M1", "", ""]
    , ["", "", "X1", "Y1", "Z1"]
    , []
    , ["1", "0.0", "1.1", "2.2", "3.3"] ]
    rfl rfl rfl

/-- Claim C5 (confirmed): on a table without a direct root marker that holds
both hip markers, the root coordinate set_skeleton computes at any frame is
the componentwise average of the two hip samples, with scene X from the file
Z cells, scene Y from the file X cells and scene Z from the file Y cells. -/
theorem set_skeleton_root_midpoint
    (d : DataTable) (i : Nat) (nm : String) (rx ry rz lx ly lz : ℚ)
    (hnoroot : d.cols.contains rootLbl = false)
    (hnolX : d.cols.contains (rootLbl ++ "_X") = false)
    (hnolY : d.cols.contains (rootLbl ++ "_Y") = false)
    (hnolZ : d.cols.contains (rootLbl ++ "_Z") = false)
    (hrx : d.loc i (rhipLbl ++ "_X") = some rx)
    (hry : d.loc i (rhipLbl ++ "_Y") = some ry)
    (hrz : d.loc i (rhipLbl ++ "_Z") = some rz)
    (hlx : d.loc i (lhipLbl ++ "_X") = some lx)
    (hly : d.loc i (lhipLbl ++ "_Y") = some ly)
    (hlz : d.loc i (lhipLbl ++ "_Z") = some lz) :
    jointCoord d i 0 nm
      = some ((rz + lz) / 2, (rx + lx) / 2, (ry + ly) / 2) := by
  have hcond : ((0 == 0) && !(d.cols.contains rootLbl)) = true := by
    rw [hnoroot]
    rfl
  rw [jointCoord, if_pos hcond]
  simp [hrz, hlz, hrx, hlx, hry, hly]

/-- Claim C5 witness: hip samples (1, 2, 3) and (5, 6, 7) average to root
scene coordinate ((3+7)/2, (1+5)/2, (2+6)/2). -/
theorem set_skeleton_root_midpoint_witness :
    jointCoord dC5w 0 0 "CHipJ1"
      = some ((3 + 7) / 2, (1 + 5) / 2, (2 + 6) / 2) :=
  set_skeleton_root_midpoint dC5w 0 "CHipJ1" 1 2 3 5 6 7
    rfl rfl rfl rfl rfl rfl rfl rfl rfl rfl

/-- Claim C6 (confirmed): a file sample (a, b, c) is applied as scene
coordinate (c, a, b), both by set_markers for every marker and frame and by
set_skeleton for every non-root joint lookup. -/
theorem axis_remap_fixed_permutation
    (d : DataTable) (i j : Nat) (name : String) (a b c : ℚ) :
    (fileTriple d i j = some (a, b, c) → set_markers_coord d i j = some (c, a, b))
    ∧ (j ≠ 0 → locTriple d i (jointNameToLabel name) = some (a, b, c) →
        jointCoord d i j name = some (c, a, b)) := by
  constructor
  · intro h
    rw [fileTriple] at h
    cases h1 : d.iloc i (3 * j) with
    | none => rw [h1] at h; simp at h
    | some x =>
      rw [h1] at h
      cases h2 : d.iloc i (3 * j + 1) with
      | none => rw [h2] at h; simp at h
      | some y =>
        rw [h2] at h
        cases h3 : d.iloc i (3 * j + 2) with
        | none => rw [h3] at h; simp at h
        | some z =>
          rw [h3] at h
          simp at h
          obtain ⟨ha, hb, hc⟩ := h
          subst ha; subst hb; subst hc
          simp [set_markers_coord, h1, h2, h3]
  · intro hj h
    have hj0 : (j == 0) = false := by
      simp [hj]
    rw [locTriple] at h
    cases h1 : d.loc i (jointNameToLabel name ++ "_X") with
    | none => rw [h1] at h; simp at h
    | some x =>
      rw [h1] at h
      cases h2 : d.loc i (jointNameToLabel name ++ "_Y") with
      | none => rw [h2] at h; simp at h
      | some y =>
        rw [h2] at h
        cases h3 : d.loc i (jointNameToLabel name ++ "_Z") with
        | none => rw [h3] at h; simp at h
        | some z =>
          rw [h3] at h
          simp at h
          obtain ⟨ha, hb, hc⟩ := h
          subst ha; subst hb; subst hc
          simp [jointCoord, hj0, h1, h2, h3]

/-- Claim C6 witness: the second marker of a two-marker table, sampled at
(1, 2, 3), is keyed at (3, 1, 2) by both engines. -/
theorem axis_remap_fixed_permutation_witness :
    set_markers_coord dC6w 0 1 = some (3, 1, 2)
    ∧ jointCoord dC6w 0 1 "RHipJ1" = some (3, 1, 2) :=
  ⟨(axis_remap_fixed_permutation dC6w 0 1 "RHipJ1" 1 2 3).1 rfl,
   (axis_remap_fixed_permutation dC6w 0 1 "RHipJ1" 1 2 3).2 (by decide) rfl⟩

/-- Claim C2 (code bug): the source compares the bare root label CHip with
the column names, which all carry an axis suffix, so the comparison never
succeeds: even on a table holding a direct CHip marker triple sampled at
(10, 20, 30) the root is placed at the hip midpoint (5, 3, 4) instead of at
the remapped direct sample (30, 10, 20), against the claim and the comment
in the source. -/
theorem set_skeleton_root_ignores_direct_marker :
    dC2.cols.contains (rootLbl ++ "_X") = true
    ∧ locTriple dC2 0 rootLbl = some (10, 20, 30)
    ∧ jointCoord dC2 0 0 "CHipJ1" = some (5, 3, 4)
    ∧ jointCoord dC2 0 0 "CHipJ1" ≠ some (30, 10, 20) := by
  have hcond : ((0 == 0) && !(dC2.cols.contains rootLbl)) = true := rfl
  have h3 : jointCoord dC2 0 0 "CHipJ1" = some (5, 3, 4) := by
    rw [jointCoord, if_pos hcond]
    rw [show dC2.loc 0 (rhipLbl ++ "_Z") = some 3 from rfl,
        show dC2.loc 0 (lhipLbl ++ "_Z") = some 7 from rfl,
        show dC2.loc 0 (rhipLbl ++ "_X") = some 1 from rfl,
        show dC2.loc 0 (lhipLbl ++ "_X") = some 5 from rfl,
        show dC2.loc 0 (rhipLbl ++ "_Y") = some 2 from rfl,
        show dC2.loc 0 (lhipLbl ++ "_Y") = some 6 from rfl]
    show some ((((3 : ℚ) + 7) / 2, ((1 : ℚ) + 5) / 2, ((2 : ℚ) + 6) / 2))
        = some ((5 : ℚ), (3 : ℚ), (4 : ℚ))
    norm_num
  refine ⟨rfl, rfl, h3, ?_⟩
  rw [h3]
  intro hEq
  simp only [Option.some.injEq, Prod.mk.injEq] at hEq
  norm_num at hEq

theorem findIdx?_beq_none (l : List String) (c : String)
    (h : l.contains c = false) :
    l.findIdx? (fun c0 => c0 == c) = none := by
  induction l with
  | nil => rfl
  | cons a t ih =>
    rw [List.contains_cons] at h
    rw [Bool.or_eq_false_iff] at h
    obtain ⟨h1, h2⟩ := h
    rw [List.findIdx?_cons]
    have hac : (a == c) = false := by
      cases hax : a == c
      · rfl
      · rw [beq_iff_eq] at hax
        subst hax
        simp at h1
    rw [hac]
    simp [ih h2]

theorem loc_none_of_contains_false (d : DataTable) (i : Nat) {c : String}
    (h : d.cols.contains c = false) : d.loc i c = none := by
  have hf := findIdx?_beq_none d.cols c h
  simp [DataTable.loc, hf]

theorem jointCoord_none_of_absent (d : DataTable) (cnt : String) (i j : Nat)
    (habs : requiredMarkerAbsent d cnt j = true) :
    jointCoord d i j ((jointsJ cnt).getD j "") = none := by
  rw [requiredMarkerAbsent] at habs
  rw [jointCoord]
  by_cases hc : ((j == 0) && !(d.cols.contains rootLbl)) = true
  · rw [if_pos hc] at habs
    rw [if_pos hc]
    simp only [Bool.or_eq_true, Bool.not_eq_true'] at habs
    rcases habs with ((((h | h) | h) | h) | h) | h
    · rw [loc_none_of_contains_false d i h]
      rfl
    · have hb := loc_none_of_contains_false d i h
      cases h1 : d.loc i (rhipLbl ++ "_Z") <;> simp [h1, hb]
    · have hb := loc_none_of_contains_false d i h
      cases h1 : d.loc i (rhipLbl ++ "_Z") <;>
        cases h2 : d.loc i (lhipLbl ++ "_Z") <;> simp [h1, h2, hb]
    · have hb := loc_none_of_contains_false d i h
      cases h1 : d.loc i (rhipLbl ++ "_Z") <;>
        cases h2 : d.loc i (lhipLbl ++ "_Z") <;>
          cases h3 : d.loc i (rhipLbl ++ "_X") <;> simp [h1, h2, h3, hb]
    · have hb := loc_none_of_contains_false d i h
      cases h1 : d.loc i (rhipLbl ++ "_Z") <;>
        cases h2 : d.loc i (lhipLbl ++ "_Z") <;>
          cases h3 : d.loc i (rhipLbl ++ "_X") <;>
            cases h4 : d.loc i (lhipLbl ++ "_X") <;> simp [h1, h2, h3, h4, hb]
    · have hb := loc_none_of_contains_false d i h
      cases h1 : d.loc i (rhipLbl ++ "_Z") <;>
        cases h2 : d.loc i (lhipLbl ++ "_Z") <;>
          cases h3 : d.loc i (rhipLbl ++ "_X") <;>
            cases h4 : d.loc i (lhipLbl ++ "_X") <;>
              cases h5 : d.loc i (rhipLbl ++ "_Y") <;>
                simp [h1, h2, h3, h4, h5, hb]
  · rw [if_neg hc] at habs
    rw [if_neg hc]
    set jnt := jointNameToLabel ((jointsJ cnt).getD j "") with hjnt
    simp only [Bool.or_eq_true, Bool.not_eq_true'] at habs
    rcases habs with (h | h) | h
    · rw [loc_none_of_contains_false d i h]
      rfl
    · have hx := loc_none_of_contains_false d i h
      cases hz : d.loc i (jnt ++ "_Z") <;> simp [hz, hx]
    · have hy := loc_none_of_contains_false d i h
      cases hz : d.loc i (jnt ++ "_Z") <;>
        cases hx : d.loc i (jnt ++ "_X") <;> simp [hz, hx, hy]

theorem placeJointsAux_none (d : DataTable) (i : Nat) :
    ∀ (names : List String) (j0 k : Nat), k < names.length →
      jointCoord d i (j0 + k) (names.getD k "") = none →
      placeJointsAux d i j0 names = none := by
  intro names
  induction names with
  | nil =>
    intro j0 k hk
    simp at hk
  | cons nm rest ih =>
    intro j0 k hk hcoord
    cases k with
    | zero =>
      rw [List.getD_cons_zero, Nat.add_zero] at hcoord
      rw [placeJointsAux]
      rw [hcoord]
      rfl
    | succ k' =>
      rw [placeJointsAux]
      have hk' : k' < rest.length := by
        simpa using hk
      have hc' : jointCoord d i ((j0 + 1) + k') (rest.getD k' "") = none := by
        have harr : j0 + (k' + 1) = (j0 + 1) + k' := by omega
        rw [← harr]
        rw [List.getD_cons_succ] at hcoord
        exact hcoord
      have htail := ih (j0 + 1) k' hk' hc'
      cases hc : jointCoord d i j0 nm <;> simp [hc, htail]

/-- Claim C9 (confirmed): when the marker columns a topology joint needs are
absent from the table (its own marker columns, or a hip marker column for the
synthesised root), any skeleton run over at least one frame aborts with an
error, returning no trace at all — in particular no joint is placed at a
default origin. -/
theorem set_skeleton_missing_marker_fails (d : DataTable) (cnt : String)
    (n j : Nat) (hn : 1 ≤ n) (hj : j < (jointsJ cnt).length)
    (habs : requiredMarkerAbsent d cnt j = true) :
    set_skeleton d cnt n = none := by
  obtain ⟨k, rfl⟩ : ∃ k, n = k + 1 := ⟨n - 1, by omega⟩
  rw [set_skeleton, skelFrames]
  have hplace : placeJoints d (jointsJ cnt) 0 = none := by
    rw [placeJoints]
    apply placeJointsAux_none d 0 (jointsJ cnt) 0 j hj
    simpa using jointCoord_none_of_absent d cnt 0 j habs
  rw [hplace]
  rfl

/-- Claim C9 witness: on an empty table the joint at pre-order position 1
lacks its marker columns and a one-frame run fails. -/
theorem set_skeleton_missing_marker_fails_witness :
    set_skeleton { cols := [], rows := [] } "1" 1 = none :=
  set_skeleton_missing_marker_fails { cols := [], rows := [] } "1" 1 1
    (by decide) (by decide) (by decide)

theorem placeJointsAux_no_orient (d : DataTable) (i : Nat) :
    ∀ (names : List String) (j0 : Nat) (evs : List Ev),
      placeJointsAux d i j0 names = some evs →
      ∀ e ∈ evs, isOrient e = false := by
  intro names
  induction names with
  | nil =>
    intro j0 evs h e he
    rw [placeJointsAux] at h
    simp at h
    subst h
    simp at he
  | cons nm rest ih =>
    intro j0 evs h e he
    rw [placeJointsAux] at h
    cases hc : jointCoord d i j0 nm with
    | none =>
      rw [hc] at h
      simp at h
    | some c =>
      rw [hc] at h
      cases ht : placeJointsAux d i (j0 + 1) rest with
      | none =>
        rw [ht] at h
        simp at h
      | some tail =>
        rw [ht] at h
        simp at h
        subst h
        simp only [List.mem_cons] at he
        rcases he with he | he | he
        · subst he
          rfl
        · subst he
          rfl
        · exact ih (j0 + 1) tail ht e he

theorem placeJointsAux_keys (d : DataTable) (i : Nat) :
    ∀ (names : List String) (j0 : Nat) (evs : List Ev),
      placeJointsAux d i j0 names = some evs →
      ∀ nm ∈ names, Ev.key nm i ∈ evs := by
  intro names
  induction names with
  | nil =>
    intro j0 evs h nm hnm
    simp at hnm
  | cons nm0 rest ih =>
    intro j0 evs h nm hnm
    rw [placeJointsAux] at h
    cases hc : jointCoord d i j0 nm0 with
    | none =>
      rw [hc] at h
      simp at h
    | some c =>
      rw [hc] at h
      cases ht : placeJointsAux d i (j0 + 1) rest with
      | none =>
        rw [ht] at h
        simp at h
      | some tail =>
        rw [ht] at h
        simp at h
        subst h
        simp only [List.mem_cons] at hnm
        rcases hnm with hnm | hnm
        · subst hnm
          simp
        · have := ih (j0 + 1) tail ht nm hnm
          simp [this]

theorem skelFrames_no_orient (d : DataTable) (J : List String) :
    ∀ (k i : Nat) (evs : List Ev), 1 ≤ i → skelFrames d J i k = some evs →
      ∀ e ∈ evs, isOrient e = false := by
  intro k
  induction k with
  | zero =>
    intro i evs hi h e he
    rw [skelFrames] at h
    simp at h
    subst h
    simp at he
  | succ k' ih =>
    intro i evs hi h e he
    rw [skelFrames] at h
    cases hp : placeJoints d J i with
    | none =>
      rw [hp] at h
      simp at h
    | some pl =>
      rw [hp] at h
      cases ht : skelFrames d J (i + 1) k' with
      | none =>
        rw [ht] at h
        simp at h
      | some tl =>
        rw [ht] at h
        have hi0 : (i == 0) = false := by
          simp
          omega
        rw [hi0] at h
        simp at h
        subst h
        simp only [List.append_nil, List.mem_append] at he
        rcases he with he | he
        · rw [placeJoints] at hp
          exact placeJointsAux_no_orient d i J 0 pl hp e he
        · exact ih (i + 1) tl (by omega) ht e he

/-- Claim C8 (confirmed): in any skeleton run over at least one frame that
completes, the recorded trace is the frame-0 placements, then the orientation
pass issuing exactly one orientation-and-keyframe operation per non-root
joint at frame 0, then the remaining frames; the orientation block appears
only there (no orientation event elsewhere in the trace) and only after
every joint received its frame-0 keyframe. -/
theorem set_skeleton_orient_once (d : DataTable) (cnt : String) (n : Nat)
    (hn : 1 ≤ n) (tr : List Ev) (h : set_skeleton d cnt n = some tr) :
    ∃ pl rest,
      tr = pl ++ orientPass (jointsJ cnt) 0 ++ rest
      ∧ (∀ e ∈ pl, isOrient e = false)
      ∧ (∀ e ∈ rest, isOrient e = false)
      ∧ (∀ nm ∈ jointsJ cnt, Ev.key nm 0 ∈ pl) := by
  obtain ⟨k, rfl⟩ : ∃ k, n = k + 1 := ⟨n - 1, by omega⟩
  rw [set_skeleton, skelFrames] at h
  cases hp : placeJoints d (jointsJ cnt) 0 with
  | none =>
    rw [hp] at h
    simp at h
  | some pl =>
    rw [hp] at h
    cases ht : skelFrames d (jointsJ cnt) (0 + 1) k with
    | none =>
      rw [ht] at h
      simp at h
    | some tl =>
      rw [ht] at h
      simp at h
      refine ⟨pl, tl, ?_, ?_, ?_, ?_⟩
      · rw [← h]
        simp [List.append_assoc]
      · rw [placeJoints] at hp
        exact fun e he => placeJointsAux_no_orient d 0 (jointsJ cnt) 0 pl hp e he
      · exact fun e he => skelFrames_no_orient d (jointsJ cnt) k (0 + 1) tl
          (by omega) ht e he
      · rw [placeJoints] at hp
        exact fun nm hnm => placeJointsAux_keys d 0 (jointsJ cnt) 0 pl hp nm hnm

/-- Claim C8 witness: a complete one-frame run over a table carrying every
marker of the topology. -/
theorem set_skeleton_orient_once_witness :
    ∃ pl rest,
      (set_skeleton dFullC8 "1" 1).getD []
          = pl ++ orientPass (jointsJ "1") 0 ++ rest
      ∧ (∀ e ∈ pl, isOrient e = false)
      ∧ (∀ e ∈ rest, isOrient e = false)
      ∧ (∀ nm ∈ jointsJ "1", Ev.key nm 0 ∈ pl) :=
  set_skeleton_orient_once dFullC8 "1" 1 (by decide)
    ((set_skeleton dFullC8 "1" 1).getD []) (by rfl)
